import Mathlib

/-!
Verification of the `peer` class of pypeernet (`src/peernet/_wrapper.py`,
with the native binding declarations of `src/peernet/_base.py`).

The wrapper methods are embedded as pure Lean functions over an explicit
`PeerState`.  Python dictionaries become insertion-ordered association
lists (`tblSet` is Python dict assignment, `tblDel` is `del`), exceptions
become `Except PyError`, and calls into the native `libpeer` transport are
recorded as a `List NativeCall` trace.  Parts of the engine that live in
the native library (validation, the dispatch-table bindings, dispatch
itself) are modelled from the specification and are marked as such in
their doc comments.
-/

namespace Peernet

/-! ## Python dictionaries as association lists -/

/-- Lookup in an insertion-ordered association list (Python `d[k]` / `k in d`). -/
def tblGet {α β : Type} [DecidableEq α] (m : List (α × β)) (k : α) : Option β :=
  match m with
  | [] => none
  | (k1, v) :: r => if k1 = k then some v else tblGet r k

/-- Python dict assignment `d[k] = v`: replace in place if the key exists, else append. -/
def tblSet {α β : Type} [DecidableEq α] (m : List (α × β)) (k : α) (v : β) : List (α × β) :=
  match m with
  | [] => [(k, v)]
  | (k1, v1) :: r => if k1 = k then (k, v) :: r else (k1, v1) :: tblSet r k v

/-- Python `del d[k]` restricted to present keys; on an absent key it is the identity,
matching the guarded `if key in d: del d[k]` idiom used throughout the wrapper. -/
def tblDel {α β : Type} [DecidableEq α] (m : List (α × β)) (k : α) : List (α × β) :=
  match m with
  | [] => []
  | (k1, v1) :: r => if k1 = k then r else (k1, v1) :: tblDel r k

/-- Number of entries stored under key `k`. -/
def countKey {α β : Type} [DecidableEq α] (m : List (α × β)) (k : α) : Nat :=
  match m with
  | [] => 0
  | (k1, _) :: r => (if k1 = k then 1 else 0) + countKey r k

/-- A table is well formed when no key occurs twice (true of every Python dict). -/
def wfKeys {α β : Type} (m : List (α × β)) : Prop :=
  (m.map Prod.fst).Nodup

/-! ## Python string primitives

Character-list implementations of the Python string operations the wrapper
uses, so that every definition evaluates inside the kernel.  All identifiers
handled here are printable ASCII, on which Python `str.upper` coincides with
character-wise ASCII uppercasing. -/

/-- Python `s.upper()` on ASCII strings: uppercase every character. -/
def pyUpper (s : String) : String :=
  String.mk (s.data.map Char.toUpper)

/-- Splitting a character list on a single separator character, keeping empty
fields, as Python `str.split(sep)` does. -/
def splitCharsAux (sep : Char) : List Char → List Char → List (List Char)
  | [], acc => [acc.reverse]
  | c :: r, acc =>
      if c = sep then acc.reverse :: splitCharsAux sep r []
      else splitCharsAux sep r (c :: acc)

/-- Python `s.split(sep)` for a one-character separator; in particular
`''.split(sep)` is `['']`, a singleton list holding the empty string. -/
def pySplit (s : String) (sep : Char) : List String :=
  (splitCharsAux sep s.data []).map String.mk

deriving instance DecidableEq for Except

/-! ## Identity validation and error codes

The validators live in the native library (`peer_py_validate_name`,
`peer_py_validate_message_type` in `_base.py`); only their Python callers are
in this repository. -/

/-- Modelled from the spec: the implementation-defined maximum identifier length
of section 4.1; the concrete bound is arbitrary and no claim depends on it. -/
def MAX_IDENT_LEN : Nat := 64

/-- Modelled from the spec: the printable-ASCII character allowlist of section 4.1. -/
def printableAscii (c : Char) : Bool :=
  0x21 ≤ c.toNat && c.toNat ≤ 0x7E

/-- Modelled from the spec: identifiers are rejected when empty, over the maximum
length, or containing characters outside the printable-ASCII allowlist (section 4.1). -/
def validIdent (s : String) : Bool :=
  s.length != 0 && Nat.ble s.length MAX_IDENT_LEN && s.data.all printableAscii

/-- Status code for a successfully completed native call. -/
def ERR_OK : Int := 0

/-- Nonzero status for an invalid peer name. -/
def ERR_INVALID_NAME : Int := -2

/-- Nonzero status for an invalid message type. -/
def ERR_INVALID_MESSAGE_TYPE : Int := -3

/-- Modelled from the spec: the non-fatal `NotRegistered` status of sections 4.6 and 7. -/
def ERR_NOT_REGISTERED : Int := -4

/-- Modelled from the spec: `peer_py_validate_name`, a pure validator returning 0
on success and a nonzero error code otherwise (section 4.1). -/
def peer_py_validate_name (s : String) : Int :=
  if validIdent s then ERR_OK else ERR_INVALID_NAME

/-- Modelled from the spec: `peer_py_validate_message_type` (section 4.1). -/
def peer_py_validate_message_type (s : String) : Int :=
  if validIdent s then ERR_OK else ERR_INVALID_MESSAGE_TYPE

/-! ## The native dispatch table

The engine's dispatch table is in the native library; the wrapper only calls
its `peer_py_on_*` / `peer_py_disable_on_*` bindings.  It is modelled from the
specification (section 4.6): callbacks are keyed by event kind and scope
(exact canonical peer name or the wildcard), message callbacks by exact peer
and exact type; re-registration replaces; unregistering a missing key is a
no-op that records `NotRegistered` as a non-fatal status. -/

/-- Event kinds of the engine's dispatch table (message callbacks are kept in a
separate table keyed by type and peer, matching the separate native bindings). -/
inductive EventKind where
  | CONNECT
  | DISCONNECT
  | EVASIVE
  | SILENT
deriving DecidableEq

/-- Callbacks are identified by an opaque numeric handle. -/
abbrev Callback := Nat

/-- State of the native engine visible through the binding: the event dispatch
table, the message dispatch table, and the last-error status read by `errno`. -/
structure NativeState where
  eventTable : List ((EventKind × String) × Callback)
  msgTable : List ((String × String) × Callback)
  lastError : Int
deriving DecidableEq

/-- Modelled from the spec: the scope key of a registration — the case-insensitive
canonical (uppercase) peer name, or the wildcard for a null pointer (sections 3, 4.6, 9). -/
def nativeScopeKey (scope : Option String) : String :=
  match scope with
  | some n => pyUpper n
  | none => "ALL"

/-- Modelled from the spec: the key of a message subscription — canonical message
type and canonical peer name (sections 3, 4.6). -/
def nativeMsgKey (peerName ty : String) : String × String :=
  (pyUpper ty, pyUpper peerName)

/-- Modelled from the spec: registering a callback under an event kind and scope;
an identical key replaces the prior callback without error (section 4.6).
Returns the native status code together with the new state. -/
def nativeRegister (ns : NativeState) (k : EventKind) (scope : Option String)
    (cb : Callback) : Int × NativeState :=
  (ERR_OK, { ns with eventTable := tblSet ns.eventTable (k, nativeScopeKey scope) cb })

/-- Modelled from the spec: unregistering an event-kind/scope key; a key that was
never registered is a no-op that signals `NotRegistered` as a non-fatal status,
recorded in the last-error field (sections 4.6, 7). -/
def nativeUnregister (ns : NativeState) (k : EventKind) (scope : Option String) :
    Int × NativeState :=
  if (tblGet ns.eventTable (k, nativeScopeKey scope)).isSome then
    (ERR_OK, { ns with eventTable := tblDel ns.eventTable (k, nativeScopeKey scope) })
  else
    (ERR_OK, { ns with lastError := ERR_NOT_REGISTERED })

/-- Modelled from the spec: registering a message callback under exact peer and
exact type; an identical key replaces the prior callback (section 4.6). -/
def nativeOnMessage (ns : NativeState) (peerName ty : String) (cb : Callback) :
    Int × NativeState :=
  (ERR_OK, { ns with msgTable := tblSet ns.msgTable (nativeMsgKey peerName ty) cb })

/-- Modelled from the spec: unregistering a message key; a missing key is a
no-op signalling `NotRegistered` non-fatally (sections 4.6, 7). -/
def nativeDisableOnMessage (ns : NativeState) (peerName ty : String) :
    Int × NativeState :=
  if (tblGet ns.msgTable (nativeMsgKey peerName ty)).isSome then
    (ERR_OK, { ns with msgTable := tblDel ns.msgTable (nativeMsgKey peerName ty) })
  else
    (ERR_OK, { ns with lastError := ERR_NOT_REGISTERED })

/-- Modelled from the spec: event dispatch tries the exact-peer key first, then
the wildcard key, and every match found fires (section 4.6). -/
def dispatchEvent (ns : NativeState) (k : EventKind) (sender : String) : List Callback :=
  (match tblGet ns.eventTable (k, pyUpper sender) with
   | some cb => [cb]
   | none => []) ++
  (match tblGet ns.eventTable (k, "ALL") with
   | some cb => [cb]
   | none => [])

/-- Modelled from the spec: message dispatch requires an exact peer and an exact
type (sections 3, 4.6). -/
def dispatchMessage (ns : NativeState) (ty sender : String) : List Callback :=
  match tblGet ns.msgTable (nativeMsgKey sender ty) with
  | some cb => [cb]
  | none => []

/-! ## The wrapper state and exceptions -/

/-- The Python-visible state of one `peer` instance: the five callback-retention
dictionaries created in `__init__` (`_wrapper.py` lines 124-128) plus the state
of the native engine behind the handle. -/
structure PeerState where
  on_connect_cbs : List (String × Callback)
  on_exit_cbs : List (String × Callback)
  on_evasive_cbs : List (String × Callback)
  on_silent_cbs : List (String × Callback)
  on_message_cbs : List (String × Callback)
  native : NativeState
deriving DecidableEq

/-- The state of a freshly constructed peer: empty callback dictionaries and an
empty native dispatch table. -/
def initialPeerState : PeerState :=
  { on_connect_cbs := []
    on_exit_cbs := []
    on_evasive_cbs := []
    on_silent_cbs := []
    on_message_cbs := []
    native := { eventTable := [], msgTable := [], lastError := ERR_OK } }

/-- The Python exceptions raised by the wrapper methods, one constructor per
distinct raise site kind. -/
inductive PyError where
  | runtimeInvalidName
  | runtimeInvalidMessageType
  | runtimeRegisterFailed (errno : Int)
  | runtimeEmptyMessage
  | runtimeSendFailed
  | valueNegativeInterval
  | valueSetIntervalFailed (errno : Int)
  | indexError
deriving DecidableEq

/-! ## Callback registration methods of class `peer`

Each `on_*`/`disable_on_*` method repeats the same prologue: a string name is
validated with `peer_py_validate_name` (raising `RuntimeError` on a nonzero
code) and uppercased into the dictionary key, while `None` maps to the key
`"ALL"` and a null pointer for the native call. -/

/-- Key computation shared verbatim by every event-callback method of class
`peer`: validate the name, then `key = name.upper()`, with `None` giving
`"ALL"`. -/
def wrapperKey (name : Option String) : Except PyError String :=
  match name with
  | some n =>
      if peer_py_validate_name n ≠ 0 then Except.error PyError.runtimeInvalidName
      else Except.ok (pyUpper n)
  | none => Except.ok "ALL"

/-- Method `peer.on_connect` (`_wrapper.py` lines 223-253): validate, register
through the native `peer_py_on_connect` binding, then retain the callback in
`_on_connect_cbs` under the uppercased key. -/
def on_connect (st : PeerState) (name : Option String) (fcn : Callback) :
    Except PyError PeerState :=
  match wrapperKey name with
  | Except.error e => Except.error e
  | Except.ok key =>
      let r := nativeRegister st.native EventKind.CONNECT name fcn
      if r.1 ≠ 0 then Except.error (PyError.runtimeRegisterFailed r.2.lastError)
      else Except.ok { st with native := r.2,
                               on_connect_cbs := tblSet st.on_connect_cbs key fcn }

/-- Method `peer.on_disconnect` (lines 286-316): registers through
`peer_py_on_disconnect` and retains the callback in `_on_exit_cbs`. -/
def on_disconnect (st : PeerState) (name : Option String) (fcn : Callback) :
    Except PyError PeerState :=
  match wrapperKey name with
  | Except.error e => Except.error e
  | Except.ok key =>
      let r := nativeRegister st.native EventKind.DISCONNECT name fcn
      if r.1 ≠ 0 then Except.error (PyError.runtimeRegisterFailed r.2.lastError)
      else Except.ok { st with native := r.2,
                               on_exit_cbs := tblSet st.on_exit_cbs key fcn }

/-- Method `peer.on_evasive` (lines 349-379).  NOTE: the source calls
`lib.peer_py_on_connect` at line 375 — not the `peer_py_on_evasive` binding
declared in `_base.py` — so the native registration is made under the CONNECT
event kind; only the retention dictionary `_on_evasive_cbs` is evasive-specific. -/
def on_evasive (st : PeerState) (name : Option String) (fcn : Callback) :
    Except PyError PeerState :=
  match wrapperKey name with
  | Except.error e => Except.error e
  | Except.ok key =>
      let r := nativeRegister st.native EventKind.CONNECT name fcn
      if r.1 ≠ 0 then Except.error (PyError.runtimeRegisterFailed r.2.lastError)
      else Except.ok { st with native := r.2,
                               on_evasive_cbs := tblSet st.on_evasive_cbs key fcn }

/-- Method `peer.on_silent` (lines 412-442).  NOTE: the source calls
`lib.peer_py_on_connect` at line 438, so the native registration is again made
under the CONNECT event kind; only `_on_silent_cbs` is silent-specific. -/
def on_silent (st : PeerState) (name : Option String) (fcn : Callback) :
    Except PyError PeerState :=
  match wrapperKey name with
  | Except.error e => Except.error e
  | Except.ok key =>
      let r := nativeRegister st.native EventKind.CONNECT name fcn
      if r.1 ≠ 0 then Except.error (PyError.runtimeRegisterFailed r.2.lastError)
      else Except.ok { st with native := r.2,
                               on_silent_cbs := tblSet st.on_silent_cbs key fcn }

/-- Method `peer.disable_on_connect` as it exists at runtime.  Class `peer`
defines `disable_on_connect` twice (lines 255 and 318); Python class bodies keep
the later definition, whose body deregisters through
`lib.peer_py_disable_on_disconnect` (line 342) and deletes from `_on_exit_cbs`
(lines 346-347).  No method named `disable_on_disconnect` exists. -/
def disable_on_connect (st : PeerState) (name : Option String) :
    Except PyError PeerState :=
  match wrapperKey name with
  | Except.error e => Except.error e
  | Except.ok key =>
      let r := nativeUnregister st.native EventKind.DISCONNECT name
      if r.1 ≠ 0 then Except.error (PyError.runtimeRegisterFailed r.2.lastError)
      else Except.ok { st with native := r.2,
                               on_exit_cbs := tblDel st.on_exit_cbs key }

/-- The first, shadowed definition of `peer.disable_on_connect` (lines 255-284):
dead code at runtime, but the body a claim cites.  It deregisters through
`peer_py_disable_on_connect` and deletes from `_on_connect_cbs`. -/
def disable_on_connect_shadowed (st : PeerState) (name : Option String) :
    Except PyError PeerState :=
  match wrapperKey name with
  | Except.error e => Except.error e
  | Except.ok key =>
      let r := nativeUnregister st.native EventKind.CONNECT name
      if r.1 ≠ 0 then Except.error (PyError.runtimeRegisterFailed r.2.lastError)
      else Except.ok { st with native := r.2,
                               on_connect_cbs := tblDel st.on_connect_cbs key }

/-- Method `peer.disable_on_evasive` (lines 381-410).  NOTE: the source calls
`lib.peer_py_disable_on_connect` at line 405 — not `peer_py_disable_on_evasive`
— so it unregisters the CONNECT-kind native entry while deleting from
`_on_evasive_cbs`. -/
def disable_on_evasive (st : PeerState) (name : Option String) :
    Except PyError PeerState :=
  match wrapperKey name with
  | Except.error e => Except.error e
  | Except.ok key =>
      let r := nativeUnregister st.native EventKind.CONNECT name
      if r.1 ≠ 0 then Except.error (PyError.runtimeRegisterFailed r.2.lastError)
      else Except.ok { st with native := r.2,
                               on_evasive_cbs := tblDel st.on_evasive_cbs key }

/-- Method `peer.disable_on_silent` (lines 444-473).  NOTE: the source calls
`lib.peer_py_disable_on_connect` at line 468, so it too unregisters the
CONNECT-kind native entry while deleting from `_on_silent_cbs`. -/
def disable_on_silent (st : PeerState) (name : Option String) :
    Except PyError PeerState :=
  match wrapperKey name with
  | Except.error e => Except.error e
  | Except.ok key =>
      let r := nativeUnregister st.native EventKind.CONNECT name
      if r.1 ≠ 0 then Except.error (PyError.runtimeRegisterFailed r.2.lastError)
      else Except.ok { st with native := r.2,
                               on_silent_cbs := tblDel st.on_silent_cbs key }

/-- The retention-dictionary key of a message callback, `'%s.%s' % (key_message,
key_name)` with both parts uppercased (lines 496-509). -/
def msgKey (ty nm : String) : String :=
  pyUpper ty ++ "." ++ pyUpper nm

/-- Method `peer.on_message` (lines 475-513): validate name then message type,
store the callback in `_on_message_cbs` under `'TYPE.NAME'` (line 509), then
register through the native `peer_py_on_message` binding (line 510). -/
def on_message (st : PeerState) (name message_type : String) (fcn : Callback) :
    Except PyError PeerState :=
  if peer_py_validate_name name ≠ 0 then Except.error PyError.runtimeInvalidName
  else if peer_py_validate_message_type message_type ≠ 0 then
    Except.error PyError.runtimeInvalidMessageType
  else
    let st1 := { st with on_message_cbs :=
                   tblSet st.on_message_cbs (msgKey message_type name) fcn }
    let r := nativeOnMessage st1.native name message_type fcn
    if r.1 ≠ 0 then Except.error (PyError.runtimeRegisterFailed r.2.lastError)
    else Except.ok { st1 with native := r.2 }

/-- Method `peer.disable_on_message` (lines 515-550): validate both identifiers,
deregister through the native binding, then — NOTE — delete the key
`'TYPE.NAME'` from `_on_connect_cbs` (lines 549-550), not from
`_on_message_cbs`, which therefore keeps its entry. -/
def disable_on_message (st : PeerState) (name message_type : String) :
    Except PyError PeerState :=
  if peer_py_validate_name name ≠ 0 then Except.error PyError.runtimeInvalidName
  else if peer_py_validate_message_type message_type ≠ 0 then
    Except.error PyError.runtimeInvalidMessageType
  else
    let r := nativeDisableOnMessage st.native name message_type
    if r.1 ≠ 0 then Except.error (PyError.runtimeRegisterFailed r.2.lastError)
    else Except.ok { st with native := r.2,
                             on_connect_cbs :=
                               tblDel st.on_connect_cbs (msgKey message_type name) }

/-! ## Messaging methods

The native transport calls reached by the messaging methods are recorded as a
trace; the status the unmodelled native send would return is a parameter. -/

/-- The native `libpeer` entry points invoked by the messaging and configuration
methods, with the arguments marshalled to them. -/
inductive NativeCall where
  | whisperCall (peerName ty : String) (data : List Nat)
  | whispersCall (peerName ty : String) (data : List Nat)
  | shoutCall (ty : String) (data : List Nat)
  | shoutsCall (ty : String) (data : List Nat)
  | setIntervalCall (ms : Int)
deriving DecidableEq

/-- Standard UTF-8 encoding of one code point, the encoding used by Python's
`str.encode` with its default `'utf-8'` argument. -/
def utf8EncodeCodePoint (n : Nat) : List Nat :=
  if n < 0x80 then [n]
  else if n < 0x800 then
    [0xC0 ||| (n >>> 6), 0x80 ||| (n &&& 0x3F)]
  else if n < 0x10000 then
    [0xE0 ||| (n >>> 12), 0x80 ||| ((n >>> 6) &&& 0x3F), 0x80 ||| (n &&& 0x3F)]
  else
    [0xF0 ||| (n >>> 18), 0x80 ||| ((n >>> 12) &&& 0x3F),
     0x80 ||| ((n >>> 6) &&& 0x3F), 0x80 ||| (n &&& 0x3F)]

/-- UTF-8 encoding of a string (`data.encode('utf-8')`). -/
def utf8Encode (s : String) : List Nat :=
  s.data.flatMap (fun c => utf8EncodeCodePoint c.toNat)

/-- Method `peer.whisper` (lines 682-722): validate the peer name, then the
message type, marshal `None` data to a null pointer of length 0, call
`lib.peer_whisper`, and raise when the native send reports a nonzero status
`sendRc`. -/
def whisper (sendRc : Int) (message_type name : String) (data : Option (List Nat)) :
    Except PyError Unit × List NativeCall :=
  if peer_py_validate_name name ≠ 0 then (Except.error PyError.runtimeInvalidName, [])
  else if peer_py_validate_message_type message_type ≠ 0 then
    (Except.error PyError.runtimeInvalidMessageType, [])
  else
    let payload := match data with
      | none => []
      | some d => d
    let calls := [NativeCall.whisperCall name message_type payload]
    if sendRc ≠ 0 then (Except.error PyError.runtimeSendFailed, calls)
    else (Except.ok (), calls)

/-- Method `peer.whispers` (lines 724-760): validate the peer name, then the
message type, reject a zero-length string (line 755-756) before any native
call, then call `lib.peer_whispers` with the UTF-8 encoded payload. -/
def whispers (sendRc : Int) (message_type name : String) (data : String) :
    Except PyError Unit × List NativeCall :=
  if peer_py_validate_name name ≠ 0 then (Except.error PyError.runtimeInvalidName, [])
  else if peer_py_validate_message_type message_type ≠ 0 then
    (Except.error PyError.runtimeInvalidMessageType, [])
  else if data.length = 0 then (Except.error PyError.runtimeEmptyMessage, [])
  else
    let calls := [NativeCall.whispersCall name message_type (utf8Encode data)]
    if sendRc ≠ 0 then (Except.error PyError.runtimeSendFailed, calls)
    else (Except.ok (), calls)

/-- Method `peer.shout` (lines 762-794): validate the message type, marshal the
payload, call `lib.peer_shout`, raising on a nonzero status. -/
def shout (sendRc : Int) (message_type : String) (data : Option (List Nat)) :
    Except PyError Unit × List NativeCall :=
  if peer_py_validate_message_type message_type ≠ 0 then
    (Except.error PyError.runtimeInvalidMessageType, [])
  else
    let payload := match data with
      | none => []
      | some d => d
    let calls := [NativeCall.shoutCall message_type payload]
    if sendRc ≠ 0 then (Except.error PyError.runtimeSendFailed, calls)
    else (Except.ok (), calls)

/-- Method `peer.shouts` (lines 796-823): validate the message type, reject a
zero-length string (lines 818-819) before any native call, then call
`lib.peer_shouts` with the UTF-8 encoded payload. -/
def shouts (sendRc : Int) (message_type : String) (data : String) :
    Except PyError Unit × List NativeCall :=
  if peer_py_validate_message_type message_type ≠ 0 then
    (Except.error PyError.runtimeInvalidMessageType, [])
  else if data.length = 0 then (Except.error PyError.runtimeEmptyMessage, [])
  else
    let calls := [NativeCall.shoutsCall message_type (utf8Encode data)]
    if sendRc ≠ 0 then (Except.error PyError.runtimeSendFailed, calls)
    else (Except.ok (), calls)

/-! ## Configuration and query methods -/

/-- Method `peer.set_interval` (lines 663-680): a negative interval raises
`ValueError` before any native call; otherwise `lib.peer_set_interval` is
invoked once, and a nonzero native status `nativeRc` raises `ValueError`. -/
def set_interval (nativeRc : Int) (interval_ms : Int) :
    Except PyError Unit × List NativeCall :=
  if interval_ms < 0 then (Except.error PyError.valueNegativeInterval, [])
  else
    let calls := [NativeCall.setIntervalCall interval_ms]
    if nativeRc ≠ 0 then (Except.error (PyError.valueSetIntervalFailed nativeRc), calls)
    else (Except.ok (), calls)

/-- Static method `peer.voidptr_to_str` (lines 49-71) on the reply of a native
call: a Python `None` or a null pointer yields the empty string, any other
pointer the C string behind it (here the pointed-to string itself). -/
def voidptr_to_str (ptr : Option String) : String :=
  match ptr with
  | none => ""
  | some s => s

/-- The parsing loop of `peer.list_connected` (lines 203-208): split the reply
on commas, split each field on a colon, and store `ws[0] ↦ ws[1]`.  Python's
`ws[1]` raises `IndexError` whenever a field contains no colon — which happens
for the empty reply, since `''.split(',')` is `['']`. -/
def parseConnected (out : String) : Except PyError (List (String × String)) :=
  (pySplit out ',').foldlM
    (fun m uf =>
      match pySplit uf ':' with
      | w0 :: w1 :: _ => Except.ok (tblSet m w0 w1)
      | _ => Except.error PyError.indexError)
    []

/-- Method `peer.list_connected` (lines 190-208): decode the native reply
pointer with `voidptr_to_str`, then parse it into the name-to-address map. -/
def list_connected (ptr : Option String) : Except PyError (List (String × String)) :=
  parseConnected (voidptr_to_str ptr)

/-! ## The method table of class `peer` -/

/-- The names bound by `def` statements in the body of class `peer` in
`src/peernet/_wrapper.py`, in source order.  Python executes a class body top
to bottom, so a later `def` of the same name shadows an earlier one in the
class namespace. -/
def peerMethodDefs : List String :=
  ["apiversion", "version", "voidptr_to_str", "from_handle", "__init__",
   "__del__", "strerror", "set_verbose", "name", "start", "list_connected",
   "errno", "on_connect", "disable_on_connect", "on_disconnect",
   "disable_on_connect", "on_evasive", "disable_on_evasive", "on_silent",
   "disable_on_silent", "on_message", "disable_on_message",
   "silent_eviction_enabled", "set_silent_eviction", "get_receiver_status",
   "exists", "set_port", "set_evasive_retry_count", "set_interface",
   "set_interval", "whisper", "whispers", "shout", "shouts",
   "get_remote_address", "set_endpoint", "gossip_bind", "gossip_connect"]

/-- Recognizer for the two synchronous validation failures a messaging method can
raise, the wrapper's rendering of the specification's `ValidationError`. -/
def isValidationError (e : Except PyError Unit) : Bool :=
  match e with
  | Except.error PyError.runtimeInvalidName => true
  | Except.error PyError.runtimeInvalidMessageType => true
  | _ => false

/-! ## Lemmas about the table operations -/

theorem tblGet_tblSet_self {α β : Type} [DecidableEq α] (m : List (α × β)) (k : α) (v : β) :
    tblGet (tblSet m k v) k = some v := by
  induction m with
  | nil => simp [tblSet, tblGet]
  | cons p r ih =>
      obtain ⟨k1, v1⟩ := p
      by_cases h : k1 = k <;> simp [tblSet, tblGet, h, ih]

theorem tblGet_tblSet_ne {α β : Type} [DecidableEq α] (m : List (α × β)) (k k2 : α) (v : β)
    (h : k2 ≠ k) : tblGet (tblSet m k v) k2 = tblGet m k2 := by
  have hk : k ≠ k2 := Ne.symm h
  induction m with
  | nil => simp [tblSet, tblGet, hk]
  | cons p r ih =>
      obtain ⟨k1, v1⟩ := p
      by_cases h1 : k1 = k
      · subst h1
        simp [tblSet, tblGet, hk]
      · simp [tblSet, tblGet, h1, ih]

theorem tblGet_eq_none_of_not_mem {α β : Type} [DecidableEq α] (m : List (α × β)) (k : α)
    (h : k ∉ m.map Prod.fst) : tblGet m k = none := by
  induction m with
  | nil => simp [tblGet]
  | cons p r ih =>
      obtain ⟨k1, v1⟩ := p
      simp only [List.map_cons, List.mem_cons, not_or] at h
      have h1 : k1 ≠ k := Ne.symm h.1
      simp [tblGet, h1, ih h.2]

theorem countKey_eq_zero_of_not_mem {α β : Type} [DecidableEq α] (m : List (α × β)) (k : α)
    (h : k ∉ m.map Prod.fst) : countKey m k = 0 := by
  induction m with
  | nil => simp [countKey]
  | cons p r ih =>
      obtain ⟨k1, v1⟩ := p
      simp only [List.map_cons, List.mem_cons, not_or] at h
      have h1 : k1 ≠ k := Ne.symm h.1
      simp [countKey, h1, ih h.2]

theorem mem_keys_tblSet {α β : Type} [DecidableEq α] (m : List (α × β)) (k k2 : α) (v : β)
    (h : k2 ∈ (tblSet m k v).map Prod.fst) : k2 ∈ m.map Prod.fst ∨ k2 = k := by
  induction m with
  | nil =>
      rw [tblSet] at h
      rcases List.mem_cons.mp h with h2 | h2
      · exact Or.inr h2
      · simp at h2
  | cons p r ih =>
      obtain ⟨k1, v1⟩ := p
      by_cases h1 : k1 = k
      · subst h1
        rw [tblSet, if_pos rfl, List.map_cons] at h
        rcases List.mem_cons.mp h with h2 | h2
        · exact Or.inr h2
        · exact Or.inl (List.mem_cons.mpr (Or.inr h2))
      · rw [tblSet, if_neg h1, List.map_cons] at h
        rcases List.mem_cons.mp h with h2 | h2
        · exact Or.inl (List.mem_cons.mpr (Or.inl h2))
        · rcases ih h2 with h3 | h3
          · exact Or.inl (List.mem_cons.mpr (Or.inr h3))
          · exact Or.inr h3

theorem wfKeys_tblSet {α β : Type} [DecidableEq α] (m : List (α × β)) (k : α) (v : β)
    (h : wfKeys m) : wfKeys (tblSet m k v) := by
  induction m with
  | nil => simp [wfKeys, tblSet]
  | cons p r ih =>
      obtain ⟨k1, v1⟩ := p
      simp only [wfKeys, List.map_cons, List.nodup_cons] at h
      by_cases h1 : k1 = k
      · subst h1
        simpa [wfKeys, tblSet] using h
      · have hr := ih h.2
        simp only [wfKeys, tblSet, if_neg h1, List.map_cons, List.nodup_cons]
        refine ⟨fun hmem => ?_, hr⟩
        rcases mem_keys_tblSet r k k1 v hmem with h2 | h2
        · exact h.1 h2
        · exact h1 h2

theorem countKey_tblSet_self {α β : Type} [DecidableEq α] (m : List (α × β)) (k : α) (v : β)
    (h : wfKeys m) : countKey (tblSet m k v) k = 1 := by
  induction m with
  | nil => simp [tblSet, countKey]
  | cons p r ih =>
      obtain ⟨k1, v1⟩ := p
      simp only [wfKeys, List.map_cons, List.nodup_cons] at h
      by_cases h1 : k1 = k
      · subst h1
        have h0 : countKey r k1 = 0 := countKey_eq_zero_of_not_mem r k1 h.1
        simp [tblSet, countKey, h0]
      · have hr := ih h.2
        simp [tblSet, countKey, h1, hr]

theorem tblGet_tblDel_self {α β : Type} [DecidableEq α] (m : List (α × β)) (k : α)
    (h : wfKeys m) : tblGet (tblDel m k) k = none := by
  induction m with
  | nil => simp [tblDel, tblGet]
  | cons p r ih =>
      obtain ⟨k1, v1⟩ := p
      simp only [wfKeys, List.map_cons, List.nodup_cons] at h
      by_cases h1 : k1 = k
      · subst h1
        simp only [tblDel, if_pos rfl]
        exact tblGet_eq_none_of_not_mem r k1 h.1
      · simp [tblDel, tblGet, h1, ih h.2]

theorem wfKeys_nil {α β : Type} : wfKeys ([] : List (α × β)) := by
  simp [wfKeys]

theorem tblDel_eq_of_get_none {α β : Type} [DecidableEq α] (m : List (α × β)) (k : α)
    (h : tblGet m k = none) : tblDel m k = m := by
  induction m with
  | nil => simp [tblDel]
  | cons p r ih =>
      obtain ⟨k1, v1⟩ := p
      by_cases h1 : k1 = k
      · simp [tblGet, h1] at h
      · simp only [tblGet, if_neg h1] at h
        simp [tblDel, h1, ih h]

/-! ## Evaluation lemmas for the wrapper methods on valid inputs -/

theorem wrapperKey_some (n : String) (h : validIdent n = true) :
    wrapperKey (some n) = Except.ok (pyUpper n) := by
  simp [wrapperKey, peer_py_validate_name, h, ERR_OK]

theorem nativeUnregister_fst (ns : NativeState) (k : EventKind) (scope : Option String) :
    (nativeUnregister ns k scope).1 = 0 := by
  by_cases h : (tblGet ns.eventTable (k, nativeScopeKey scope)).isSome <;>
    simp [nativeUnregister, h, ERR_OK]

theorem nativeDisableOnMessage_fst (ns : NativeState) (peerName ty : String) :
    (nativeDisableOnMessage ns peerName ty).1 = 0 := by
  by_cases h : (tblGet ns.msgTable (nativeMsgKey peerName ty)).isSome <;>
    simp [nativeDisableOnMessage, h, ERR_OK]

theorem on_connect_ok (st : PeerState) (n : String) (cb : Callback)
    (h : validIdent n = true) :
    on_connect st (some n) cb = Except.ok { st with
      on_connect_cbs := tblSet st.on_connect_cbs (pyUpper n) cb,
      native := { st.native with
        eventTable := tblSet st.native.eventTable (EventKind.CONNECT, pyUpper n) cb } } := by
  simp [on_connect, wrapperKey_some n h, nativeRegister, nativeScopeKey, ERR_OK]

theorem on_disconnect_ok (st : PeerState) (n : String) (cb : Callback)
    (h : validIdent n = true) :
    on_disconnect st (some n) cb = Except.ok { st with
      on_exit_cbs := tblSet st.on_exit_cbs (pyUpper n) cb,
      native := { st.native with
        eventTable := tblSet st.native.eventTable (EventKind.DISCONNECT, pyUpper n) cb } } := by
  simp [on_disconnect, wrapperKey_some n h, nativeRegister, nativeScopeKey, ERR_OK]

theorem on_evasive_ok (st : PeerState) (n : String) (cb : Callback)
    (h : validIdent n = true) :
    on_evasive st (some n) cb = Except.ok { st with
      on_evasive_cbs := tblSet st.on_evasive_cbs (pyUpper n) cb,
      native := { st.native with
        eventTable := tblSet st.native.eventTable (EventKind.CONNECT, pyUpper n) cb } } := by
  simp [on_evasive, wrapperKey_some n h, nativeRegister, nativeScopeKey, ERR_OK]

theorem on_silent_ok (st : PeerState) (n : String) (cb : Callback)
    (h : validIdent n = true) :
    on_silent st (some n) cb = Except.ok { st with
      on_silent_cbs := tblSet st.on_silent_cbs (pyUpper n) cb,
      native := { st.native with
        eventTable := tblSet st.native.eventTable (EventKind.CONNECT, pyUpper n) cb } } := by
  simp [on_silent, wrapperKey_some n h, nativeRegister, nativeScopeKey, ERR_OK]

theorem disable_on_connect_ok (st : PeerState) (n : String)
    (h : validIdent n = true) :
    disable_on_connect st (some n) = Except.ok { st with
      native := (nativeUnregister st.native EventKind.DISCONNECT (some n)).2,
      on_exit_cbs := tblDel st.on_exit_cbs (pyUpper n) } := by
  simp [disable_on_connect, wrapperKey_some n h, nativeUnregister_fst]

theorem disable_on_evasive_ok (st : PeerState) (n : String)
    (h : validIdent n = true) :
    disable_on_evasive st (some n) = Except.ok { st with
      native := (nativeUnregister st.native EventKind.CONNECT (some n)).2,
      on_evasive_cbs := tblDel st.on_evasive_cbs (pyUpper n) } := by
  simp [disable_on_evasive, wrapperKey_some n h, nativeUnregister_fst]

theorem disable_on_silent_ok (st : PeerState) (n : String)
    (h : validIdent n = true) :
    disable_on_silent st (some n) = Except.ok { st with
      native := (nativeUnregister st.native EventKind.CONNECT (some n)).2,
      on_silent_cbs := tblDel st.on_silent_cbs (pyUpper n) } := by
  simp [disable_on_silent, wrapperKey_some n h, nativeUnregister_fst]

theorem on_message_ok (st : PeerState) (n t : String) (cb : Callback)
    (hn : validIdent n = true) (ht : validIdent t = true) :
    on_message st n t cb = Except.ok { st with
      on_message_cbs := tblSet st.on_message_cbs (msgKey t n) cb,
      native := { st.native with
        msgTable := tblSet st.native.msgTable (nativeMsgKey n t) cb } } := by
  simp [on_message, peer_py_validate_name, peer_py_validate_message_type, hn, ht,
        nativeOnMessage, ERR_OK]

theorem disable_on_message_ok (st : PeerState) (n t : String)
    (hn : validIdent n = true) (ht : validIdent t = true) :
    disable_on_message st n t = Except.ok { st with
      native := (nativeDisableOnMessage st.native n t).2,
      on_connect_cbs := tblDel st.on_connect_cbs (msgKey t n) } := by
  simp [disable_on_message, peer_py_validate_name, peer_py_validate_message_type, hn, ht,
        nativeDisableOnMessage_fst, ERR_OK]

/-! ## The claims -/

/-- C1: the claim fails on the code.  `on_evasive` and `on_silent` register
through the native `peer_py_on_connect` binding (`_wrapper.py` lines 375, 438)
instead of the `peer_py_on_evasive`/`peer_py_on_silent` bindings declared in
`_base.py`, so the native registration lands under the CONNECT event kind and
nothing is registered under EVASIVE or SILENT; `disable_on_evasive` and
`disable_on_silent` call `peer_py_disable_on_connect` (lines 405, 468), removing
the CONNECT-kind registration.  Evaluated at scope "X" with callbacks 7 and 5:
after `on_evasive` ("on_silent") the native table holds the callback under
CONNECT and none under EVASIVE (SILENT), and each disable call removes a
CONNECT registration made by `on_connect`. -/
theorem c1_evasive_silent_act_on_connect_kind :
    ((on_evasive initialPeerState (some "X") 7).toOption.map
      (fun st => (tblGet st.native.eventTable (EventKind.EVASIVE, "X"),
                  tblGet st.native.eventTable (EventKind.CONNECT, "X")))
      = some (none, some 7))
    ∧ ((on_silent initialPeerState (some "X") 7).toOption.map
      (fun st => (tblGet st.native.eventTable (EventKind.SILENT, "X"),
                  tblGet st.native.eventTable (EventKind.CONNECT, "X")))
      = some (none, some 7))
    ∧ (((on_connect initialPeerState (some "X") 5).bind
          (fun st => disable_on_evasive st (some "X"))).toOption.map
        (fun st => tblGet st.native.eventTable (EventKind.CONNECT, "X"))
      = some none)
    ∧ (((on_connect initialPeerState (some "X") 5).bind
          (fun st => disable_on_silent st (some "X"))).toOption.map
        (fun st => tblGet st.native.eventTable (EventKind.CONNECT, "X"))
      = some none) := by
  decide

/-- C2: the claim fails on the code.  Class `peer` defines `disable_on_connect`
twice (lines 255 and 318) and never defines `disable_on_disconnect`, so the
second body — which deregisters the disconnect callback — shadows the first.
Consequently registering a connect callback for "X" and calling
`disable_on_connect("X")` leaves the connect callback in `_on_connect_cbs` and
the native CONNECT registration in place (the call instead attempts to
unregister the DISCONNECT key, finding nothing). -/
theorem c2_disable_on_connect_is_shadowed :
    peerMethodDefs.count "disable_on_connect" = 2
    ∧ "disable_on_disconnect" ∉ peerMethodDefs
    ∧ (((on_connect initialPeerState (some "X") 5).bind
          (fun st => disable_on_connect st (some "X"))).toOption.map
        (fun st => (tblGet st.on_connect_cbs "X",
                    tblGet st.native.eventTable (EventKind.CONNECT, "X"),
                    st.native.lastError))
      = some (some 5, some 5, ERR_NOT_REGISTERED)) := by
  decide

/-- C4: the claim fails on the code.  After `on_message("X", "CHAT", cb)` a
successful `disable_on_message("X", "CHAT")` removes the native message
registration but deletes the key `'CHAT.X'` from `_on_connect_cbs` (lines
549-550) instead of from `_on_message_cbs`, which still retains the callback. -/
theorem c4_disable_on_message_wrong_retention_table :
    ((on_message initialPeerState "X" "CHAT" 5).bind
        (fun st => disable_on_message st "X" "CHAT")).toOption.map
      (fun st => (tblGet st.on_message_cbs "CHAT.X",
                  st.native.msgTable, st.on_connect_cbs))
    = some (some 5, [], []) := by
  decide

/-- C7: the claim fails on the code.  With zero connected peers the native reply
is a null pointer or an empty string, `voidptr_to_str` yields `''`, and the
parsing loop raises `IndexError` because `''.split(',')` is `['']` and the
colon-free field has no `ws[1]` — instead of returning an empty mapping.  With a
well-formed nonempty reply the name-to-address mapping is produced. -/
theorem c7_list_connected_fails_on_zero_peers :
    list_connected none = Except.error PyError.indexError
    ∧ list_connected (some "") = Except.error PyError.indexError
    ∧ list_connected (some "A:addr1,B:addr2")
      = Except.ok [("A", "addr1"), ("B", "addr2")] := by
  decide

/-- C8: the claim fails on the code.  Evaluated at the failing input: with a
connect callback registered for "X" and the key (EVASIVE, "X") never registered,
`disable_on_evasive("X")` removes the native CONNECT registration (the event
table becomes empty) and reports plain success (last-error stays 0 rather than
NotRegistered) — neither a no-op nor a NotRegistered signal.  By contrast, on a
state with no registrations at all, `disable_on_message` does behave as the
claim says: a no-op that records the non-fatal NotRegistered status. -/
theorem c8_disable_on_evasive_never_registered_not_noop :
    (((on_connect initialPeerState (some "X") 5).bind
        (fun st => disable_on_evasive st (some "X"))).toOption.map
      (fun st => (st.native.eventTable, st.native.lastError, st.on_evasive_cbs))
      = some ([], 0, []))
    ∧ (disable_on_message initialPeerState "X" "CHAT"
      = Except.ok { initialPeerState with
          native := { eventTable := [], msgTable := [],
                      lastError := ERR_NOT_REGISTERED } }) := by
  decide

/-- C3: registering callback `a` for the message key of peer `x` and type `t`
and then callback `b` for the identical key replaces `a`: the wrapper's
retention table and the native message table hold exactly `b` under that key
(one entry), and dispatching a message of type `t` from `x` invokes exactly
`b`, once. -/
theorem c3_on_message_identical_key_replaces (st : PeerState) (x t : String)
    (a b : Callback) (hn : validIdent x = true) (ht : validIdent t = true)
    (hwf : wfKeys st.on_message_cbs) (hwfn : wfKeys st.native.msgTable) :
    ∃ st1 st2, on_message st x t a = Except.ok st1
      ∧ on_message st1 x t b = Except.ok st2
      ∧ tblGet st2.on_message_cbs (msgKey t x) = some b
      ∧ countKey st2.on_message_cbs (msgKey t x) = 1
      ∧ tblGet st2.native.msgTable (nativeMsgKey x t) = some b
      ∧ countKey st2.native.msgTable (nativeMsgKey x t) = 1
      ∧ dispatchMessage st2.native t x = [b] := by
  refine ⟨_, _, on_message_ok st x t a hn ht, on_message_ok _ x t b hn ht,
          ?_, ?_, ?_, ?_, ?_⟩
  · exact tblGet_tblSet_self _ _ _
  · exact countKey_tblSet_self _ _ _ (wfKeys_tblSet _ _ _ hwf)
  · exact tblGet_tblSet_self _ _ _
  · exact countKey_tblSet_self _ _ _ (wfKeys_tblSet _ _ _ hwfn)
  · simp [dispatchMessage, tblGet_tblSet_self]

/-- C3 witness: the replacement behaviour at the concrete key ("X", "CHAT")
with callbacks 1 and 2 on a fresh peer. -/
theorem c3_witness :
    ∃ st1 st2, on_message initialPeerState "X" "CHAT" 1 = Except.ok st1
      ∧ on_message st1 "X" "CHAT" 2 = Except.ok st2
      ∧ tblGet st2.on_message_cbs (msgKey "CHAT" "X") = some 2
      ∧ countKey st2.on_message_cbs (msgKey "CHAT" "X") = 1
      ∧ tblGet st2.native.msgTable (nativeMsgKey "X" "CHAT") = some 2
      ∧ countKey st2.native.msgTable (nativeMsgKey "X" "CHAT") = 1
      ∧ dispatchMessage st2.native "CHAT" "X" = [2] :=
  c3_on_message_identical_key_replaces initialPeerState "X" "CHAT" 1 2
    (by decide) (by decide) wfKeys_nil wfKeys_nil

/-- C5: whenever the peer name or the message type fails validation, each of
`whisper`, `whispers`, `shout` and `shouts` returns a synchronous validation
error with an empty native-call trace (the native send entry point is never
invoked); conversely each method's native send is reached only when every
validation applicable to it passes. -/
theorem c5_validation_precedes_native_send (rc : Int) (nm ty s : String)
    (bs : Option (List Nat)) :
    (peer_py_validate_name nm ≠ 0 ∨ peer_py_validate_message_type ty ≠ 0 →
        (whisper rc ty nm bs).2 = []
      ∧ isValidationError (whisper rc ty nm bs).1 = true
      ∧ (whispers rc ty nm s).2 = []
      ∧ isValidationError (whispers rc ty nm s).1 = true)
    ∧ (peer_py_validate_message_type ty ≠ 0 →
        (shout rc ty bs).2 = []
      ∧ isValidationError (shout rc ty bs).1 = true
      ∧ (shouts rc ty s).2 = []
      ∧ isValidationError (shouts rc ty s).1 = true)
    ∧ ((whisper rc ty nm bs).2 ≠ [] →
        peer_py_validate_name nm = 0 ∧ peer_py_validate_message_type ty = 0)
    ∧ ((whispers rc ty nm s).2 ≠ [] →
        peer_py_validate_name nm = 0 ∧ peer_py_validate_message_type ty = 0)
    ∧ ((shout rc ty bs).2 ≠ [] → peer_py_validate_message_type ty = 0)
    ∧ ((shouts rc ty s).2 ≠ [] → peer_py_validate_message_type ty = 0) := by
  refine ⟨?_, ?_, ?_, ?_, ?_, ?_⟩
  · intro h
    rcases h with h | h
    · simp [whisper, whispers, h, isValidationError]
    · by_cases hn : peer_py_validate_name nm = 0 <;>
        simp [whisper, whispers, hn, h, isValidationError]
  · intro h
    simp [shout, shouts, h, isValidationError]
  · intro h2
    by_cases hn : peer_py_validate_name nm = 0
    · by_cases ht : peer_py_validate_message_type ty = 0
      · exact ⟨hn, ht⟩
      · simp [whisper, hn, ht] at h2
    · simp [whisper, hn] at h2
  · intro h2
    by_cases hn : peer_py_validate_name nm = 0
    · by_cases ht : peer_py_validate_message_type ty = 0
      · exact ⟨hn, ht⟩
      · simp [whispers, hn, ht] at h2
    · simp [whispers, hn] at h2
  · intro h2
    by_cases ht : peer_py_validate_message_type ty = 0
    · exact ht
    · simp [shout, ht] at h2
  · intro h2
    by_cases ht : peer_py_validate_message_type ty = 0
    · exact ht
    · simp [shouts, ht] at h2

/-- C5 witness: the empty string fails name validation, and `whisper` with it
performs no native call and raises a validation error. -/
theorem c5_witness :
    (peer_py_validate_name "" ≠ 0 ∨ peer_py_validate_message_type "CHAT" ≠ 0)
    ∧ (whisper 0 "CHAT" "" none).2 = []
    ∧ isValidationError (whisper 0 "CHAT" "" none).1 = true := by
  have h := (c5_validation_precedes_native_send 0 "" "CHAT" "hi" none).1
    (Or.inl (by decide))
  exact ⟨Or.inl (by decide), h.1, h.2.1⟩

/-- C6: with a valid peer name and message type, `whispers` and `shouts` reject
a zero-length string payload with the empty-payload error before any native
call, and with a payload of nonzero length they invoke the corresponding native
send with the UTF-8 encoding of the payload. -/
theorem c6_text_variants_empty_and_encode (rc : Int) (nm ty s : String)
    (hn : peer_py_validate_name nm = 0) (ht : peer_py_validate_message_type ty = 0) :
    whispers rc ty nm "" = (Except.error PyError.runtimeEmptyMessage, [])
    ∧ shouts rc ty "" = (Except.error PyError.runtimeEmptyMessage, [])
    ∧ (s.length ≠ 0 →
        (whispers rc ty nm s).2 = [NativeCall.whispersCall nm ty (utf8Encode s)]
      ∧ (shouts rc ty s).2 = [NativeCall.shoutsCall ty (utf8Encode s)]) := by
  have h0 : ("" : String).length = 0 := rfl
  refine ⟨?_, ?_, fun hs => ⟨?_, ?_⟩⟩
  · simp [whispers, hn, ht, h0]
  · simp [shouts, ht, h0]
  · by_cases hrc : rc = 0 <;> simp [whispers, hn, ht, hs, hrc]
  · by_cases hrc : rc = 0 <;> simp [shouts, ht, hs, hrc]

/-- C6 witness: at name "X", type "CHAT", the empty payload is rejected with no
native call, and the payload "hi" is sent UTF-8 encoded. -/
theorem c6_witness :
    peer_py_validate_name "X" = 0
    ∧ peer_py_validate_message_type "CHAT" = 0
    ∧ whispers 7 "CHAT" "X" "" = (Except.error PyError.runtimeEmptyMessage, [])
    ∧ ("hi".length ≠ 0
       ∧ (whispers 7 "CHAT" "X" "hi").2
         = [NativeCall.whispersCall "X" "CHAT" (utf8Encode "hi")]) := by
  have h := c6_text_variants_empty_and_encode 7 "X" "CHAT" "hi" (by decide) (by decide)
  exact ⟨by decide, by decide, h.1, by decide, (h.2.2 (by decide)).1⟩

/-- C9: callback-registration keys canonicalise peer names case-insensitively
to the uppercase form: for valid names `n` and `n2` with the same uppercasing
(and message types `t`, `t2` likewise), registering under `n` then under `n2`
leaves a single entry under the canonical key holding the later callback, and
registering under `n` then deregistering under `n2` removes that single entry. -/
theorem c9_keys_canonicalise_case_insensitively (st : PeerState) (n n2 t t2 : String)
    (a b : Callback)
    (hn : validIdent n = true) (hn2 : validIdent n2 = true)
    (hcase : pyUpper n2 = pyUpper n)
    (ht : validIdent t = true) (ht2 : validIdent t2 = true)
    (htcase : pyUpper t2 = pyUpper t)
    (hwfc : wfKeys st.on_connect_cbs) (hwfe : wfKeys st.on_evasive_cbs)
    (hwfm : wfKeys st.on_message_cbs) :
    (∃ st1 st2, on_connect st (some n) a = Except.ok st1
      ∧ on_connect st1 (some n2) b = Except.ok st2
      ∧ tblGet st2.on_connect_cbs (pyUpper n) = some b
      ∧ countKey st2.on_connect_cbs (pyUpper n) = 1)
    ∧ (∃ st1 st2, on_evasive st (some n) a = Except.ok st1
      ∧ disable_on_evasive st1 (some n2) = Except.ok st2
      ∧ tblGet st2.on_evasive_cbs (pyUpper n) = none)
    ∧ (∃ st1 st2, on_message st n t a = Except.ok st1
      ∧ on_message st1 n2 t2 b = Except.ok st2
      ∧ tblGet st2.on_message_cbs (msgKey t n) = some b
      ∧ countKey st2.on_message_cbs (msgKey t n) = 1) := by
  refine ⟨⟨_, _, on_connect_ok st n a hn, on_connect_ok _ n2 b hn2, ?_, ?_⟩,
          ⟨_, _, on_evasive_ok st n a hn, disable_on_evasive_ok _ n2 hn2, ?_⟩,
          ⟨_, _, on_message_ok st n t a hn ht, on_message_ok _ n2 t2 b hn2 ht2, ?_, ?_⟩⟩
  · show tblGet (tblSet (tblSet st.on_connect_cbs (pyUpper n) a) (pyUpper n2) b)
        (pyUpper n) = some b
    rw [hcase]
    exact tblGet_tblSet_self _ _ _
  · show countKey (tblSet (tblSet st.on_connect_cbs (pyUpper n) a) (pyUpper n2) b)
        (pyUpper n) = 1
    rw [hcase]
    exact countKey_tblSet_self _ _ _ (wfKeys_tblSet _ _ _ hwfc)
  · show tblGet (tblDel (tblSet st.on_evasive_cbs (pyUpper n) a) (pyUpper n2))
        (pyUpper n) = none
    rw [hcase]
    exact tblGet_tblDel_self _ _ (wfKeys_tblSet _ _ _ hwfe)
  · show tblGet (tblSet (tblSet st.on_message_cbs (msgKey t n) a) (msgKey t2 n2) b)
        (msgKey t n) = some b
    rw [show msgKey t2 n2 = msgKey t n by rw [msgKey, msgKey, hcase, htcase]]
    exact tblGet_tblSet_self _ _ _
  · show countKey (tblSet (tblSet st.on_message_cbs (msgKey t n) a) (msgKey t2 n2) b)
        (msgKey t n) = 1
    rw [show msgKey t2 n2 = msgKey t n by rw [msgKey, msgKey, hcase, htcase]]
    exact countKey_tblSet_self _ _ _ (wfKeys_tblSet _ _ _ hwfm)

/-- C9 witness: the case variants "x"/"X" and "chat"/"Chat" on a fresh peer. -/
theorem c9_witness :
    (∃ st1 st2, on_connect initialPeerState (some "x") 1 = Except.ok st1
      ∧ on_connect st1 (some "X") 2 = Except.ok st2
      ∧ tblGet st2.on_connect_cbs (pyUpper "x") = some 2
      ∧ countKey st2.on_connect_cbs (pyUpper "x") = 1)
    ∧ (∃ st1 st2, on_evasive initialPeerState (some "x") 1 = Except.ok st1
      ∧ disable_on_evasive st1 (some "X") = Except.ok st2
      ∧ tblGet st2.on_evasive_cbs (pyUpper "x") = none)
    ∧ (∃ st1 st2, on_message initialPeerState "x" "chat" 1 = Except.ok st1
      ∧ on_message st1 "X" "Chat" 2 = Except.ok st2
      ∧ tblGet st2.on_message_cbs (msgKey "chat" "x") = some 2
      ∧ countKey st2.on_message_cbs (msgKey "chat" "x") = 1) :=
  c9_keys_canonicalise_case_insensitively initialPeerState "x" "X" "chat" "Chat" 1 2
    (by decide) (by decide) (by decide) (by decide) (by decide) (by decide)
    wfKeys_nil wfKeys_nil wfKeys_nil

/-- C10: `set_interval` raises `ValueError` without any native call for a
negative interval; for a nonnegative interval it invokes the native setter
exactly once and succeeds exactly when that call reports status 0. -/
theorem c10_set_interval_guard (i rc : Int) :
    (i < 0 → set_interval rc i = (Except.error PyError.valueNegativeInterval, []))
    ∧ (0 ≤ i → (set_interval rc i).2 = [NativeCall.setIntervalCall i]
        ∧ ((set_interval rc i).1 = Except.ok () ↔ rc = 0)) := by
  constructor
  · intro h
    simp [set_interval, h]
  · intro h
    have h2 : ¬ i < 0 := not_lt.mpr h
    by_cases hrc : rc = 0 <;> simp [set_interval, h2, hrc]

/-- C10 witness: interval -1 is rejected with no native call; interval 5 with a
succeeding native setter is invoked once and succeeds. -/
theorem c10_witness :
    ((-1 : Int) < 0 ∧ set_interval 3 (-1) = (Except.error PyError.valueNegativeInterval, []))
    ∧ ((0 : Int) ≤ 5 ∧ (set_interval 0 5).2 = [NativeCall.setIntervalCall 5]
        ∧ ((set_interval 0 5).1 = Except.ok () ↔ (0 : Int) = 0)) :=
  ⟨⟨by decide, (c10_set_interval_guard (-1) 3).1 (by decide)⟩,
   ⟨by decide, (c10_set_interval_guard 5 0).2 (by decide)⟩⟩

end Peernet

